import Mathlib

/-!
Verification of the request-handling contract of `src/api.py` from the
john-mwangi/data_pipeline repository: a FastAPI endpoint that authenticates
with HTTP basic credentials, rate-limits per client address, validates a
pydantic request body, builds a `SELECT * FROM <table> LIMIT <limit>` query
against a SQLite store, and wraps the rows in a success/error envelope.

The embedding follows the source: pure functions for the credential check,
request validation, query construction and the handler body; the external
SQLite evaluation of the built query follows the documented SQLite semantics
of the LIMIT clause; the two parts of the repository that are not in the
source tree (the `responses` envelope lookup of `src/utils.py` and the
slowapi fixed-window rate limiter) are modelled from the spec, as noted on
their definitions.
-/

namespace Api

/-- Exceptions that can cross the handlers of `src/api.py`: `httpException`
mirrors fastapi.HTTPException (status code, detail, headers) and is the only
kind the `except` clause of `get_data` catches; `storeError` mirrors the
sqlalchemy/sqlite driver errors raised while connecting, executing the
SELECT, or fetching rows. -/
inductive PyExc where
  | httpException (status_code : Nat) (detail : String) (headers : List (String × String))
  | storeError (msg : String)
deriving DecidableEq, Repr

/-- HTTP basic credentials, as in fastapi.security.HTTPBasicCredentials. -/
structure Credentials where
  username : String
  password : String
deriving DecidableEq, Repr

/-- get_current_username from `src/api.py`: compares the supplied username and
password against the configured admin pair using secrets.compare_digest on the
utf8 encodings, which is byte equality, hence string equality. On a double
match it returns the username; otherwise it raises HTTPException 401 with a
WWW-Authenticate challenge header. The configured admin pair comes from
config.yaml and is a parameter here. -/
def get_current_username (admin c : Credentials) : Except PyExc String :=
  if c.username = admin.username ∧ c.password = admin.password then
    Except.ok c.username
  else
    Except.error (PyExc.httpException 401 "Incorrect username or password"
      [("WWW-Authenticate", "Basic")])

/-- read_current_user from `src/api.py`: GET /users/me returns the username
produced by the auth dependency (the response body is the returned string). -/
def read_current_user (admin c : Credentials) : Except PyExc String :=
  get_current_username admin c

/-- The state of the `limit` field in a /get_data JSON request body. Pydantic
treats the three states differently for `limit : Optional[int] =
Field(default=5, le=1000)`: an absent field takes the default 5, an explicit
null is accepted because the annotation is Optional, and an integer must
satisfy le=1000 (there is no lower bound in the source). -/
inductive LimitField where
  | absent
  | null
  | val (n : Int)
deriving DecidableEq, Repr

/-- A /get_data JSON request body before validation. `none` on source_table,
start_index and end_index means the field is absent; the date strings are
optional and unused downstream. -/
structure RequestBody where
  source_table : Option String
  start_index : Option Int
  end_index : Option Int
  limit : LimitField
  start_date : Option String
  end_date : Option String
deriving DecidableEq, Repr

/-- RequestParams from `src/api.py` after pydantic validation: source_table
defaulted to the configured table, required non-negative indices, limit as
Optional[int] (none is an explicit null), optional date strings. -/
structure RequestParams where
  source_table : String
  start_index : Int
  end_index : Int
  limit : Option Int
  start_date : Option String
  end_date : Option String
deriving DecidableEq, Repr

/-- Pydantic validation of RequestParams (`src/api.py` lines 61-69),
parameterized by the configured default table name: source_table defaults,
start_index and end_index are required with ge=0, limit defaults to 5, may be
an explicit null, and an integer value must satisfy le=1000; the date fields
pass through. Any violation makes fastapi reject the request with 422. -/
def validate (table_name : String) (b : RequestBody) : Except Nat RequestParams :=
  match b.start_index with
  | none => Except.error 422
  | some si =>
    if si < 0 then Except.error 422 else
    match b.end_index with
    | none => Except.error 422
    | some ei =>
      if ei < 0 then Except.error 422 else
      match b.limit with
      | LimitField.absent =>
          Except.ok ⟨b.source_table.getD table_name, si, ei, some 5,
            b.start_date, b.end_date⟩
      | LimitField.null =>
          Except.ok ⟨b.source_table.getD table_name, si, ei, none,
            b.start_date, b.end_date⟩
      | LimitField.val n =>
          if n ≤ 1000 then
            Except.ok ⟨b.source_table.getD table_name, si, ei, some n,
              b.start_date, b.end_date⟩
          else Except.error 422

/-- A database table in the SQLite store: column names and rows of values. -/
structure Table where
  columns : List String
  rows : List (List String)
deriving DecidableEq, Repr

/-- Python str() of params.limit as interpolated into the f-string query:
None prints as the four characters None, an integer prints in decimal. -/
def limitStr : Option Int → String
  | none => "None"
  | some n => toString n

/-- The query string built by get_data (`src/api.py` line 79):
f-string SELECT * FROM params.source_table LIMIT params.limit. -/
def buildQuery (p : RequestParams) : String :=
  "SELECT * FROM " ++ p.source_table ++ " LIMIT " ++ limitStr p.limit

/-- SQLite evaluation of the built query against the resolved source table,
per the documented semantics of the LIMIT clause: a negative limit means no
upper bound on the number of rows returned (all rows), a non-negative limit
returns at most that many rows in table order, and a Python None interpolates
as the bare identifier None, which SQLite rejects with the driver error
`no such column: None`. -/
def execQuery (p : RequestParams) (tbl : Table) : Except PyExc (List (List String)) :=
  match p.limit with
  | none => Except.error (PyExc.storeError "no such column: None")
  | some n => Except.ok (if n < 0 then tbl.rows else tbl.rows.take n.toNat)

/-- Modelled from the spec: the `responses` lookup lives in `src/utils.py`,
which is not in the source tree; per the spec the envelope has exactly one of
two fixed shapes, SUCCESS or ERROR, whose status fields come from a static
lookup. The shape is modelled as a tag. -/
inductive EnvTag where
  | SUCCESS
  | ERROR
deriving DecidableEq, Repr

/-- The JSON response of /get_data: data is a sequence of records or null,
plus the envelope tag and the HTTP status code of the JSONResponse. -/
structure Response where
  data : Option (List (List (String × String)))
  tag : EnvTag
  status_code : Nat
deriving DecidableEq, Repr

/-- dict(row._mapping): one fetched row as a record keyed by column name. -/
def rowRecord (cols row : List String) : List (String × String) := cols.zip row

/-- The observable behaviour of one get_data invocation: the SQL string it
passed to the store, and either a response together with the warning messages
logged, or an exception that escaped the handler uncaught. -/
structure CallTrace where
  executedQuery : String
  result : Except PyExc (Response × List String)
deriving Repr

/-- get_data from `src/api.py` (lines 75-98): builds the query, executes it
inside a try block, maps rows to records and returns the 200 SUCCESS envelope,
logging a warning when zero rows return; the except clause catches only
HTTPException and maps it to the 400 ERROR envelope with null data, so any
other exception propagates uncaught. -/
def get_data (p : RequestParams) (tbl : Table) : CallTrace :=
  let query := buildQuery p
  match execQuery p tbl with
  | Except.ok res =>
      let warn := if res.length = 0 then ["no records returned"] else []
      let data := res.map (rowRecord tbl.columns)
      { executedQuery := query,
        result := Except.ok
          ({ data := some data, tag := EnvTag.SUCCESS, status_code := 200 }, warn) }
  | Except.error e =>
      match e with
      | PyExc.httpException _ _ _ =>
          { executedQuery := query,
            result := Except.ok
              ({ data := none, tag := EnvTag.ERROR, status_code := 400 }, []) }
      | PyExc.storeError m =>
          { executedQuery := query, result := Except.error (PyExc.storeError m) }

/-- The /get_data route after auth and rate limiting: fastapi validates the
body first and the handler runs only on success, so a 422 validation failure
means no query was built and the store was never contacted. -/
def handleRequest (table_name : String) (b : RequestBody) (tbl : Table) :
    Except Nat CallTrace :=
  (validate table_name b).map (fun p => get_data p tbl)

/-- Modelled from the spec: the fixed-window rate limiter is the external
slowapi library, configured in `src/api.py` (lines 26-28, 72-75) but not part
of the source tree. Per the spec there are two independent fixed windows per
client address, per-second and per-minute; each incoming request increments
both, the request is rejected when either threshold is exceeded, and windows
reset at fixed boundaries. This is the state for one client address:
the current window identifier and count for each granularity. -/
structure LimiterState where
  secWin : Nat
  secCount : Nat
  minWin : Nat
  minCount : Nat
deriving DecidableEq, Repr

/-- One request from the client at time t (in seconds): both windows roll to
the bucket of t (second bucket t, minute bucket t / 60), the counts reset at
a bucket boundary, both counts increment, and the request is allowed only if
neither incremented count exceeds its threshold. -/
def limiterHit (perSec perMin t : Nat) (s : LimiterState) : LimiterState × Bool :=
  let cs := if s.secWin = t then s.secCount else 0
  let cm := if s.minWin = t / 60 then s.minCount else 0
  (⟨t, cs + 1, t / 60, cm + 1⟩,
    decide (cs + 1 ≤ perSec) && decide (cm + 1 ≤ perMin))

/-- The rate-limited /get_data endpoint for one client: on a hit within the
limits the query executor runs and produces a trace; on a rejection the
request never reaches the executor (no trace). -/
def rateLimitedGetData (perSec perMin t : Nat) (s : LimiterState)
    (p : RequestParams) (tbl : Table) : LimiterState × Option CallTrace :=
  let hit := limiterHit perSec perMin t s
  (hit.1, if hit.2 then some (get_data p tbl) else none)

/-- A sample validated params value: defaults with limit 5 over table events. -/
def sampleParams : RequestParams := ⟨"events", 0, 3, some 5, none, none⟩

/-- A sample request body that validates to sampleParams. -/
def sampleBody : RequestBody :=
  ⟨some "events", some 0, some 3, LimitField.absent, none, none⟩

/-- A sample three-row table. -/
def sampleTable : Table :=
  ⟨["id", "name"], [["1", "a"], ["2", "b"], ["3", "c"]]⟩

/-- Claim C1: for every request that passes validation with an integer limit n,
against a source table holding fewer rows than n, get_data executes exactly the
query string SELECT * FROM source_table LIMIT n, and returns the 200 SUCCESS
envelope whose data is exactly the available rows in order, each mapped to a
record keyed by column name (with the zero-row warning exactly when the table
is empty). -/
theorem get_data_small_table (table_name : String) (b : RequestBody)
    (p : RequestParams) (tbl : Table) (n : Int)
    (hv : validate table_name b = Except.ok p)
    (hl : p.limit = some n)
    (hrows : (tbl.rows.length : Int) < n) :
    (get_data p tbl).executedQuery
        = "SELECT * FROM " ++ p.source_table ++ " LIMIT " ++ toString n
    ∧ (get_data p tbl).result
        = Except.ok
            ({ data := some (tbl.rows.map (rowRecord tbl.columns)),
               tag := EnvTag.SUCCESS, status_code := 200 },
             if tbl.rows.length = 0 then ["no records returned"] else []) := by
  have hn : ¬ n < 0 := by omega
  have htake : tbl.rows.take n.toNat = tbl.rows :=
    List.take_of_length_le (by omega)
  constructor
  · simp [get_data, buildQuery, limitStr, execQuery, hl, if_neg hn]
  · simp [get_data, execQuery, hl, if_neg hn, htake]

/-- Witness for C1 at a concrete body, params and table. -/
theorem get_data_small_table_witness :
    (get_data sampleParams sampleTable).executedQuery
        = "SELECT * FROM " ++ sampleParams.source_table ++ " LIMIT "
            ++ toString (5 : Int)
    ∧ (get_data sampleParams sampleTable).result
        = Except.ok
            ({ data := some (sampleTable.rows.map (rowRecord sampleTable.columns)),
               tag := EnvTag.SUCCESS, status_code := 200 },
             if sampleTable.rows.length = 0 then ["no records returned"] else []) :=
  get_data_small_table "events" sampleBody sampleParams sampleTable 5
    rfl rfl (by decide)

/-- Claim C2: credentials matching the configured admin pair make GET /users/me
return that username; any other pair fails with HTTPException 401 carrying the
WWW-Authenticate challenge header, and nothing else happens. -/
theorem read_current_user_auth (admin c : Credentials) :
    (c.username = admin.username ∧ c.password = admin.password →
        read_current_user admin c = Except.ok c.username)
    ∧ (¬ (c.username = admin.username ∧ c.password = admin.password) →
        read_current_user admin c
          = Except.error (PyExc.httpException 401 "Incorrect username or password"
              [("WWW-Authenticate", "Basic")])) := by
  constructor
  · intro h
    simp [read_current_user, get_current_username, h]
  · intro h
    simp only [read_current_user, get_current_username, if_neg h]

/-- Witness for C2: a matching pair and a mismatched pair, concretely. -/
theorem read_current_user_auth_witness :
    read_current_user ⟨"admin", "pw"⟩ ⟨"admin", "pw"⟩ = Except.ok "admin"
    ∧ read_current_user ⟨"admin", "pw"⟩ ⟨"admin", "x"⟩
        = Except.error (PyExc.httpException 401 "Incorrect username or password"
            [("WWW-Authenticate", "Basic")]) :=
  ⟨(read_current_user_auth ⟨"admin", "pw"⟩ ⟨"admin", "pw"⟩).1 (by exact ⟨rfl, rfl⟩),
   (read_current_user_auth ⟨"admin", "pw"⟩ ⟨"admin", "x"⟩).2 (by simp)⟩

/-- A request body supplying limit = -1, which pydantic accepts: the only
constraint on limit in the source is le=1000. -/
def negBody : RequestBody :=
  ⟨some "events", some 0, some 0, LimitField.val (-1), none, none⟩

/-- The params that negBody validates to. -/
def negParams : RequestParams := ⟨"events", 0, 0, some (-1), none, none⟩

/-- A table with 1001 rows, more than any limit validation allows. -/
def bigTable : Table := ⟨["c"], List.replicate 1001 ["v"]⟩

/-- Counterexample to claim C3: validation accepts limit = -1 (le=1000 imposes
no lower bound), and SQLite evaluates LIMIT -1 as no bound at all, so get_data
on a 1001-row table fetches all 1001 rows, more than the supposed 1000 cap:
the query does fetch an unbounded number of rows. -/
theorem limit_invariant_counterexample :
    validate "events" negBody = Except.ok negParams
    ∧ negParams.limit = some (-1)
    ∧ (get_data negParams bigTable).result
        = Except.ok
            ({ data := some (List.replicate 1001 [("c", "v")]),
               tag := EnvTag.SUCCESS, status_code := 200 }, [])
    ∧ 1000 < (List.replicate 1001 [("c", "v")]).length := by
  have hexec : execQuery negParams bigTable = Except.ok bigTable.rows := rfl
  have hmap : bigTable.rows.map (rowRecord bigTable.columns)
      = List.replicate 1001 [("c", "v")] := by
    show (List.replicate 1001 ["v"]).map (rowRecord ["c"]) = _
    rw [List.map_replicate, show rowRecord ["c"] ["v"] = [("c", "v")] from rfl]
  have hlen : bigTable.rows.length = 1001 := by
    show (List.replicate 1001 ["v"]).length = 1001
    rw [List.length_replicate]
  refine ⟨rfl, rfl, ?_, by rw [List.length_replicate]; omega⟩
  unfold get_data
  rw [hexec]
  dsimp only
  rw [hmap, hlen]
  norm_num

/-- Claim C3 as amended: validation caps an integer limit at 1000 from above,
and for a non-negative accepted limit n the store returns at most n rows; but
no lower bound is imposed, so a negative accepted limit makes SQLite fetch the
whole table without bound (and an explicit null limit is also accepted). -/
theorem limit_upper_bound (table_name : String) (b : RequestBody)
    (p : RequestParams) (n : Int)
    (hv : validate table_name b = Except.ok p) (hl : p.limit = some n) :
    n ≤ 1000
    ∧ (0 ≤ n → ∀ tbl rows, execQuery p tbl = Except.ok rows →
        (rows.length : Int) ≤ n) := by
  constructor
  · unfold validate at hv
    split at hv
    · exact absurd hv (by simp)
    · split at hv
      · exact absurd hv (by simp)
      · split at hv
        · exact absurd hv (by simp)
        · split at hv
          · exact absurd hv (by simp)
          · split at hv
            · cases hv
              simp at hl
              omega
            · cases hv
              simp at hl
            · split at hv
              · cases hv
                simp at hl
                omega
              · exact absurd hv (by simp)
  · intro hn tbl rows hexec
    simp only [execQuery, hl] at hexec
    have hnn : ¬ n < 0 := by omega
    rw [if_neg hnn] at hexec
    cases hexec
    simp [List.length_take]
    omega

/-- Witness for the amended C3 at the default limit 5 and the sample table. -/
theorem limit_upper_bound_witness :
    (5 : Int) ≤ 1000
    ∧ ((([["1", "a"], ["2", "b"], ["3", "c"]] : List (List String)).length : Int)
        ≤ 5) :=
  ⟨(limit_upper_bound "events" sampleBody sampleParams 5 rfl rfl).1,
   (limit_upper_bound "events" sampleBody sampleParams 5 rfl rfl).2 (by decide)
     sampleTable [["1", "a"], ["2", "b"], ["3", "c"]] rfl⟩

/-- A request body supplying an explicit null limit, accepted because the
annotation on limit is Optional. -/
def nullBody : RequestBody :=
  ⟨some "events", some 0, some 0, LimitField.null, none, none⟩

/-- The params that nullBody validates to: limit is None. -/
def nullParams : RequestParams := ⟨"events", 0, 0, none, none, none⟩

/-- Counterexample to claim C4: a query-execution failure that does not
produce the 400 ERROR envelope. Validation accepts an explicit null limit, the
built query is SELECT * FROM events LIMIT None, SQLite rejects the identifier
None, and since the except clause catches only HTTPException, the store error
escapes get_data uncaught instead of becoming the 400 envelope. -/
theorem query_failure_counterexample :
    validate "events" nullBody = Except.ok nullParams
    ∧ (get_data nullParams sampleTable).executedQuery
        = "SELECT * FROM events LIMIT None"
    ∧ (get_data nullParams sampleTable).result
        = Except.error (PyExc.storeError "no such column: None") :=
  ⟨rfl, rfl, rfl⟩

/-- Claim C4 as amended: only an HTTPException raised inside the try block is
mapped to the 400 ERROR envelope; every store-level failure while connecting,
executing the SELECT or fetching rows propagates out of get_data uncaught. -/
theorem store_failure_propagates (p : RequestParams) (tbl : Table) (m : String)
    (h : execQuery p tbl = Except.error (PyExc.storeError m)) :
    (get_data p tbl).result = Except.error (PyExc.storeError m) := by
  simp [get_data, h]

/-- Witness for the amended C4 at the null-limit params and sample table. -/
theorem store_failure_propagates_witness :
    (get_data nullParams sampleTable).result
      = Except.error (PyExc.storeError "no such column: None") :=
  store_failure_propagates nullParams sampleTable "no such column: None" rfl

/-- Claim C5: every request body whose limit is an integer greater than 1000
is rejected by validation with 422, so the handler never runs: no query is
built and the store is never contacted. -/
theorem validate_rejects_large_limit (table_name : String) (b : RequestBody)
    (n : Int) (hb : b.limit = LimitField.val n) (hn : 1000 < n) :
    validate table_name b = Except.error 422
    ∧ ∀ tbl, handleRequest table_name b tbl = Except.error 422 := by
  have hval : validate table_name b = Except.error 422 := by
    unfold validate
    split
    · rfl
    · split
      · rfl
      · split
        · rfl
        · split
          · rfl
          · rw [hb]
            simp only
            rw [if_neg (by omega)]
  exact ⟨hval, fun tbl => by simp [handleRequest, hval, Except.map]⟩

/-- Witness for C5 at limit 1001. -/
theorem validate_rejects_large_limit_witness :
    validate "events"
        ⟨some "events", some 0, some 0, LimitField.val 1001, none, none⟩
      = Except.error 422
    ∧ handleRequest "events"
        ⟨some "events", some 0, some 0, LimitField.val 1001, none, none⟩
        sampleTable
      = Except.error 422 :=
  ⟨(validate_rejects_large_limit "events"
      ⟨some "events", some 0, some 0, LimitField.val 1001, none, none⟩
      1001 rfl (by decide)).1,
   (validate_rejects_large_limit "events"
      ⟨some "events", some 0, some 0, LimitField.val 1001, none, none⟩
      1001 rfl (by decide)).2 sampleTable⟩

/-- A table with columns but zero rows. -/
def emptyTable : Table := ⟨["id", "name"], []⟩

/-- Counterexample to claim C6: a request that passes validation (explicit
null limit) against a zero-row table does not return the 200 success envelope
with empty data; the built query is LIMIT None, SQLite rejects it, and the
error escapes uncaught, so the claim fails for this valid request. -/
theorem empty_table_counterexample :
    validate "events" nullBody = Except.ok nullParams
    ∧ (get_data nullParams emptyTable).result
        = Except.error (PyExc.storeError "no such column: None") :=
  ⟨rfl, rfl⟩

/-- Claim C6 as amended: every request that passes validation with an integer
limit (the default 5 or any supplied integer), against a source table with
zero rows, logs the warning no records returned and still returns the 200
SUCCESS envelope with data equal to the empty sequence; a request whose limit
is an explicit null instead makes the query fail. -/
theorem get_data_empty_table (table_name : String) (b : RequestBody)
    (p : RequestParams) (tbl : Table) (n : Int)
    (hv : validate table_name b = Except.ok p)
    (hl : p.limit = some n) (he : tbl.rows = []) :
    (get_data p tbl).result
      = Except.ok
          ({ data := some [], tag := EnvTag.SUCCESS, status_code := 200 },
           ["no records returned"]) := by
  simp [get_data, execQuery, hl, he]

/-- Witness for the amended C6 at the sample body over the empty table. -/
theorem get_data_empty_table_witness :
    (get_data sampleParams emptyTable).result
      = Except.ok
          ({ data := some [], tag := EnvTag.SUCCESS, status_code := 200 },
           ["no records returned"]) :=
  get_data_empty_table "events" sampleBody sampleParams emptyTable 5 rfl rfl rfl

/-- Params that agree with sampleParams on source_table and limit but differ
in start_index, end_index, start_date and end_date. -/
def altParams : RequestParams :=
  ⟨"events", 7, 9, some 5, some "2024-01-01", some "2024-12-31"⟩

/-- Claim C7: two requests that agree on source_table and limit produce the
same executed SQL string and the same response, whatever their start_index,
end_index, start_date and end_date: those four fields have no influence on
get_data. -/
theorem unused_params_no_influence (p q : RequestParams) (tbl : Table)
    (hs : p.source_table = q.source_table) (hl : p.limit = q.limit) :
    get_data p tbl = get_data q tbl := by
  unfold get_data buildQuery execQuery
  rw [hs, hl]

/-- Witness for C7: sampleParams and altParams differ in all four unused
fields yet give the same trace. -/
theorem unused_params_no_influence_witness :
    get_data sampleParams sampleTable = get_data altParams sampleTable :=
  unused_params_no_influence sampleParams altParams sampleTable rfl rfl

/-- Claim C8: with positive thresholds, once the count of a window that is
still current has reached its threshold, a further request in that window is
rejected before the query executor runs, and the rejection leaves the window
saturated so every further request in the window is likewise rejected; a
request at a time whose second and minute buckets are both fresh is allowed
and the executor runs. Modelled from the spec (slowapi fixed-window). -/
theorem rate_limit_window (perSec perMin t u : Nat) (s : LimiterState)
    (p : RequestParams) (tbl : Table)
    (hs : 1 ≤ perSec) (hm : 1 ≤ perMin) :
    (s.secWin = t → perSec ≤ s.secCount →
        (rateLimitedGetData perSec perMin t s p tbl).2 = none
        ∧ (rateLimitedGetData perSec perMin t s p tbl).1.secWin = t
        ∧ perSec ≤ (rateLimitedGetData perSec perMin t s p tbl).1.secCount)
    ∧ (s.minWin = t / 60 → perMin ≤ s.minCount →
        (rateLimitedGetData perSec perMin t s p tbl).2 = none
        ∧ (rateLimitedGetData perSec perMin t s p tbl).1.minWin = t / 60
        ∧ perMin ≤ (rateLimitedGetData perSec perMin t s p tbl).1.minCount)
    ∧ (s.secWin ≠ u → s.minWin ≠ u / 60 →
        (rateLimitedGetData perSec perMin u s p tbl).2
          = some (get_data p tbl)) := by
  refine ⟨fun hw hc => ?_, fun hw hc => ?_, fun hw1 hw2 => ?_⟩
  · simp only [rateLimitedGetData, limiterHit, if_pos hw]
    have : ¬ (s.secCount + 1 ≤ perSec) := by omega
    simp [this]
    omega
  · simp only [rateLimitedGetData, limiterHit, if_pos hw]
    have : ¬ (s.minCount + 1 ≤ perMin) := by omega
    simp [this]
    omega
  · simp only [rateLimitedGetData, limiterHit, if_neg hw1, if_neg hw2]
    have h1 : 0 + 1 ≤ perSec := by omega
    have h2 : 0 + 1 ≤ perMin := by omega
    simp [h1, h2]

/-- Witness for C8: thresholds 1/second and 2/minute, a client whose second
window 0 is saturated is rejected at t = 0 and allowed again at t = 60, in a
fresh second and minute bucket. -/
theorem rate_limit_window_witness :
    (rateLimitedGetData 1 2 0 ⟨0, 1, 0, 1⟩ sampleParams sampleTable).2 = none
    ∧ (rateLimitedGetData 1 2 60 ⟨0, 1, 0, 1⟩ sampleParams sampleTable).2
        = some (get_data sampleParams sampleTable) :=
  ⟨((rate_limit_window 1 2 0 60 ⟨0, 1, 0, 1⟩ sampleParams sampleTable
      (by decide) (by decide)).1 rfl (by decide)).1,
   (rate_limit_window 1 2 0 60 ⟨0, 1, 0, 1⟩ sampleParams sampleTable
      (by decide) (by decide)).2.2 (by decide) (by decide)⟩

/-- Claim C9: the except clause of get_data is unreachable, because nothing in
the try block raises HTTPException: every invocation either returns the 200
SUCCESS envelope or lets the store error escape uncaught, and the 400 ERROR
envelope is never produced. -/
theorem except_branch_unreachable (p : RequestParams) (tbl : Table) :
    (∃ d w, (get_data p tbl).result
        = Except.ok
            ({ data := some d, tag := EnvTag.SUCCESS, status_code := 200 }, w))
    ∨ (get_data p tbl).result
        = Except.error (PyExc.storeError "no such column: None") := by
  cases hl : p.limit with
  | none =>
      right
      simp [get_data, execQuery, hl]
  | some n =>
      left
      refine ⟨(if n < 0 then tbl.rows else tbl.rows.take n.toNat).map
        (rowRecord tbl.columns),
        if (if n < 0 then tbl.rows else tbl.rows.take n.toNat).length = 0
          then ["no records returned"] else [], ?_⟩
      simp [get_data, execQuery, hl]

/-- Claim C10: start_index and end_index are required non-negative fields with
no defaults: omitting either or supplying a negative value is rejected by
validation with 422, even though neither field influences the built query. -/
theorem required_indices (table_name : String) (b : RequestBody) :
    (b.start_index = none → validate table_name b = Except.error 422)
    ∧ (∀ i, b.start_index = some i → i < 0 →
        validate table_name b = Except.error 422)
    ∧ (b.end_index = none → validate table_name b = Except.error 422)
    ∧ (∀ i, b.end_index = some i → i < 0 →
        validate table_name b = Except.error 422)
    ∧ (∀ p q : RequestParams, p.source_table = q.source_table →
        p.limit = q.limit → buildQuery p = buildQuery q) := by
  refine ⟨fun h => ?_, fun i hi hneg => ?_, fun h => ?_, fun i hi hneg => ?_,
    fun p q hs hl => ?_⟩
  · simp [validate, h]
  · simp [validate, hi, if_pos hneg]
  · unfold validate
    split
    · rfl
    · rw [h]
      split
      · rfl
      · rfl
  · unfold validate
    split
    · rfl
    · rw [hi]
      split
      · rfl
      · dsimp only
        rw [if_pos hneg]
  · unfold buildQuery
    rw [hs, hl]

/-- Witness for C10: concrete bodies with a missing or negative index, all
rejected with 422, and the query built from sampleParams and altParams. -/
theorem required_indices_witness :
    validate "events"
        ⟨some "events", none, some 0, LimitField.absent, none, none⟩
      = Except.error 422
    ∧ validate "events"
        ⟨some "events", some (-2), some 0, LimitField.absent, none, none⟩
      = Except.error 422
    ∧ validate "events"
        ⟨some "events", some 0, none, LimitField.absent, none, none⟩
      = Except.error 422
    ∧ validate "events"
        ⟨some "events", some 0, some (-2), LimitField.absent, none, none⟩
      = Except.error 422
    ∧ buildQuery sampleParams = buildQuery altParams :=
  ⟨(required_indices "events"
      ⟨some "events", none, some 0, LimitField.absent, none, none⟩).1 rfl,
   (required_indices "events"
      ⟨some "events", some (-2), some 0, LimitField.absent, none, none⟩).2.1
      (-2) rfl (by decide),
   (required_indices "events"
      ⟨some "events", some 0, none, LimitField.absent, none, none⟩).2.2.1 rfl,
   (required_indices "events"
      ⟨some "events", some 0, some (-2), LimitField.absent, none, none⟩).2.2.2.1
      (-2) rfl (by decide),
   (required_indices "events" sampleBody).2.2.2.2 sampleParams altParams
      rfl rfl⟩

end Api
